import Mathlib

/-! Verification of the live-reaction-system server core (FastAPI backend from
`documents/implementation-log.md`, Step 4 and Step 7 code blocks) and of the
viewing-screen client logic (`frontend/src/components/ViewingScreen.tsx`).

The embedding mirrors the Python/TypeScript source: dictionaries become
association lists with the same `.get`-with-default semantics, the per-user
`deque(maxlen=3)` becomes a bounded list, floats become exact rationals, and
fallible steps are surfaced as explicit success flags or `Option`.
-/

namespace LiveReaction

/-- One client-second of reactions, as stored by the websocket endpoint:
`ReactionSample(timestamp, states, events)` (implementation-log.md:628-635). -/
structure ReactionSample where
  timestamp : Int
  states : List (String × Bool)
  events : List (String × Int)
deriving DecidableEq

/-- Python `states.get(key, False)` on a dict of booleans. -/
def dictGetB (d : List (String × Bool)) (k : String) : Bool :=
  (d.lookup k).getD false

/-- Python `events.get(key, 0)` on a dict of integers. -/
def dictGetI (d : List (String × Int)) (k : String) : Int :=
  (d.lookup k).getD 0

/-- Python `d.get(key, 0)` on a dict of floats (ratio / density maps). -/
def dictGetQ (d : List (String × ℚ)) (k : String) : ℚ :=
  (d.lookup k).getD 0

/-- The per-user window: `deque(maxlen=3)`; appending beyond the bound evicts
the oldest samples (implementation-log.md:634-639, 663-671). -/
def dequeAppend (maxlen : Nat) (w : List ReactionSample) (s : ReactionSample) :
    List ReactionSample :=
  let w2 := w ++ [s]
  if maxlen < w2.length then w2.drop (w2.length - maxlen) else w2

/-- The global `user_data : Dict[str, Deque[ReactionSample]]` store. -/
abbrev Store := List (String × List ReactionSample)

/-- `user_data[uid]` for a user known to be present; absent users give `[]`. -/
def storeWindow (store : Store) (uid : String) : List ReactionSample :=
  ((List.lookup uid store)).getD []

/-- Replace the window bound to `uid`, or bind it fresh at the end
(Python dict assignment `user_data[user_id] = ...`). -/
def storeSet (store : Store) (uid : String) (w : List ReactionSample) : Store :=
  if (List.lookup uid store).isSome then
    store.map (fun p => if p.1 == uid then (uid, w) else p)
  else
    store ++ [(uid, w)]

/-- The sample built by the websocket endpoint from an incoming message:
`timestamp = message.get("timestamp", int(time.time() * 1000))`: the
client-sent field when present, the server clock only as fallback
(implementation-log.md:657-670). -/
def sampleOfMessage (nowMs : Int) (tsField : Option Int)
    (states : List (String × Bool)) (events : List (String × Int)) :
    ReactionSample :=
  { timestamp := tsField.getD nowMs, states := states, events := events }

/-- Receipt of one reaction message: create the deque of the user if missing and
append the freshly built sample (implementation-log.md:662-671). -/
def receiveReaction (nowMs : Int) (store : Store) (uid : String)
    (tsField : Option Int) (states : List (String × Bool))
    (events : List (String × Int)) : Store :=
  storeSet store uid
    (dequeAppend 3 (storeWindow store uid) (sampleOfMessage nowMs tsField states events))

/-- The `WebSocketDisconnect` handler:
`if user_id and user_id in user_data: del user_data[user_id]`
(implementation-log.md:675-678). `user_id` is `None` when no message was ever
received, and a Python falsy (empty) string is also skipped. -/
def handleDisconnect (userId : Option String) (store : Store) : Store :=
  match userId with
  | none => store
  | some uid =>
      if uid == "" then store
      else if (List.lookup uid store).isSome then
        store.filter (fun p => p.1 != uid)
      else store

/-- `samples and (now - samples[-1].timestamp) <= 3000`: the active-user test
of the aggregation loop (implementation-log.md:694-696). -/
def isActiveWindow (now : Int) (samples : List ReactionSample) : Bool :=
  match samples.getLast? with
  | none => false
  | some s => now - s.timestamp ≤ 3000

/-- The active-user selection of one tick (implementation-log.md:690-696). -/
def active_users (now : Int) (store : Store) : List String :=
  (store.filter (fun p => isActiveWindow now p.2)).map (fun p => p.1)

/-- The state names aggregated by the loop (implementation-log.md:703). -/
def state_keys : List String := ["isSmiling"]

/-- The event names aggregated by the loop (implementation-log.md:713). -/
def event_keys : List String := ["nod"]

/-- `true_count`: the inner double sum of the ratio computation — it counts
`1` once per (user, sample) pair whose state is true
(implementation-log.md:704-708). -/
def true_count (store : Store) (active : List String) (key : String) : Nat :=
  (active.map (fun uid =>
    (storeWindow store uid).countP (fun s => dictGetB s.states key))).sum

/-- `ratio_state[state_key] = true_count / len(active_users)`
(implementation-log.md:701-709). -/
def ratio_state_val (store : Store) (active : List String) (key : String) : ℚ :=
  (true_count store active key : ℚ) / (active.length : ℚ)

/-- The `ratio_state` dict built by one tick. -/
def ratio_state_dict (store : Store) (active : List String) :
    List (String × ℚ) :=
  state_keys.map (fun k => (k, ratio_state_val store active k))

/-- `total_count`: sum of an event counter over all samples of all active
users (implementation-log.md:714-718). -/
def total_count (store : Store) (active : List String) (key : String) : Int :=
  (active.map (fun uid =>
    ((storeWindow store uid).map (fun s => dictGetI s.events key)).sum)).sum

/-- `density_event[event_key] = total_count / (len(active_users) * 3)`
(implementation-log.md:711-719). -/
def density_event_val (store : Store) (active : List String) (key : String) : ℚ :=
  (total_count store active key : ℚ) / ((active.length : ℚ) * 3)

/-- The `density_event` dict built by one tick. -/
def density_event_dict (store : Store) (active : List String) :
    List (String × ℚ) :=
  event_keys.map (fun k => (k, density_event_val store active k))

/-- The effect message assembled by `determine_effect`
(implementation-log.md:746-757), `debug` payload included. -/
structure Effect where
  effectType : String
  intensity : ℚ
  durationMs : Int
  timestamp : Int
  debugActiveUsers : Nat
  debugRatioState : List (String × ℚ)
  debugDensityEvent : List (String × ℚ)
deriving DecidableEq

/-- `determine_effect(ratio_state, density_event, active_users)`: walk the
rungs top-down and return the first effect whose predicate holds, else
`None`. The implemented ladder has the single `sparkle` rung
`ratio_state.get("isSmiling", 0) >= 0.3` with `intensity =
ratio_state["isSmiling"]` and no clamping (implementation-log.md:741-759). -/
def determine_effect (ratioState densityEvent : List (String × ℚ))
    (active : List String) (now : Int) : Option Effect :=
  if (3 / 10 : ℚ) ≤ dictGetQ ratioState "isSmiling" then
    some { effectType := "sparkle"
           intensity := dictGetQ ratioState "isSmiling"
           durationMs := 2000
           timestamp := now
           debugActiveUsers := active.length
           debugRatioState := ratioState
           debugDensityEvent := densityEvent }
  else
    none

/-- The body of one aggregation tick (implementation-log.md:685-727): select
active users, skip the tick when none, otherwise build both maps and run
`determine_effect`. -/
def aggregationTick (now : Int) (store : Store) : Option Effect :=
  let active := active_users now store
  if active.isEmpty then none
  else
    determine_effect (ratio_state_dict store active)
      (density_event_dict store active) active now

/-- The effect messages broadcast by one tick: `if effect: await
broadcast(effect)` — one message when `determine_effect` returned one,
none otherwise (implementation-log.md:724-726). -/
def tickBroadcasts (now : Int) (store : Store) : List Effect :=
  (aggregationTick now store).toList

/-- Modelled from the spec: `ratio_state[s] ← (count of users u in A such
that any sample in A[u] has s=true) / |A|` — the per-distinct-user ratio the
spec describes, for comparison with the implemented `ratio_state_val`. -/
def ratio_state_per_spec (store : Store) (active : List String) (key : String) : ℚ :=
  ((active.countP (fun uid =>
      (storeWindow store uid).any (fun s => dictGetB s.states key)) : ℚ)) /
    (active.length : ℚ)

/-- A `reactions_log` row (implementation-log.md:1530-1544, 1627-1643). -/
structure ReactionRow where
  user_id : String
  timestamp : Int
  is_smiling : Bool
  is_surprised : Bool
  is_concentrating : Bool
  is_hand_up : Bool
  nod_count : Int
  sway_vertical_count : Int
  cheer_count : Int
  clap_count : Int
deriving DecidableEq

/-- `log_reaction(user_id, data)`: the row it inserts. Its `timestamp` is
`int(time.time() * 1000)` taken inside the function — the server clock at the
call, never the timestamp field of the message (implementation-log.md:1619-1644). -/
def log_reaction (serverNowMs : Int) (userId : String)
    (states : List (String × Bool)) (events : List (String × Int)) : ReactionRow :=
  { user_id := userId
    timestamp := serverNowMs
    is_smiling := dictGetB states "isSmiling"
    is_surprised := dictGetB states "isSurprised"
    is_concentrating := dictGetB states "isConcentrating"
    is_hand_up := dictGetB states "isHandUp"
    nod_count := dictGetI events "nod"
    sway_vertical_count := dictGetI events "swayVertical"
    cheer_count := dictGetI events "cheer"
    clap_count := dictGetI events "clap" }

/-- Observable server actions of the effect-handling tail of a tick, in
program order. -/
inductive ServerAction where
  | logEffectRow (e : Effect)
  | logEffectError
  | sendEffect (uid : String) (e : Effect)
  | sendFailure (uid : String)
deriving DecidableEq

/-- `broadcast(message)`: iterate over `active_connections.items()`, try to
send to each, catch the per-subscriber exception and keep iterating
(implementation-log.md:770-784). A subscriber is `(user_id, send succeeds?)`. -/
def broadcastTrace (subs : List (String × Bool)) (e : Effect) : List ServerAction :=
  subs.map (fun p =>
    if p.2 then ServerAction.sendEffect p.1 e else ServerAction.sendFailure p.1)

/-- The user ids `broadcast` actually delivered to. -/
def broadcastSent (subs : List (String × Bool)) : List String :=
  (subs.filter (fun p => p.2)).map (fun p => p.1)

/-- The connections left registered after `broadcast`: the
`disconnected_users` collected by the except-branch are deleted afterwards
(implementation-log.md:781-783). -/
def broadcastRemaining (subs : List (String × Bool)) : List (String × Bool) :=
  subs.filter (fun p => p.2)

/-- The effect-handling tail of a tick (implementation-log.md:1685-1693):
`if effect: try log_effect(effect) except ...; await broadcast(effect)`.
`persistOk` is whether the `log_effect` insert commits; a failure is caught
and only printed, then the fan-out runs either way. -/
def tickEffectTrace (persistOk : Bool) (subs : List (String × Bool))
    (effect : Option Effect) : List ServerAction :=
  match effect with
  | none => []
  | some e =>
      (if persistOk then [ServerAction.logEffectRow e]
       else [ServerAction.logEffectError]) ++ broadcastTrace subs e

/-- Is this action an `effects_log` insert? -/
def isLogRowAct : ServerAction → Bool
  | ServerAction.logEffectRow _ => true
  | _ => false

/-- Is this action a subscriber send (successful delivery)? -/
def isSendAct : ServerAction → Bool
  | ServerAction.sendEffect _ _ => true
  | _ => false

/-- The client-side seek decision on a `time_sync_response`
(ViewingScreen.tsx:390-406): bail out unless a response arrived, the client
is not the host and the player handle exists; then seek to the host time iff
`Math.abs(hostTime - myTime) > 1.0`. Returns the seek target, if any. -/
def handleTimeSyncResponse (resp : Option ℚ) (isHost playerPresent : Bool)
    (myTime : ℚ) : Option ℚ :=
  match resp with
  | none => none
  | some hostTime =>
      if isHost || !playerPresent then none
      else if 1 < |hostTime - myTime| then some hostTime else none

/-- `setIsPlaying(event.data === 1)`: the playing flag derived from the
YouTube player state code (ViewingScreen.tsx:277). -/
def isPlayingFlag (stateCode : Int) : Bool := stateCode == 1

/-- The reaction frame the 1-second send loop transmits. -/
structure ReactionMessage where
  states : List (String × Bool)
  events : List (String × Int)
  videoTime : ℚ
  sessionId : String
deriving DecidableEq

/-- One firing of the client-side 1-second send interval
(ViewingScreen.tsx:182-220): the interval only exists while the socket is
connected, and its body returns without sending unless `isPlaying`. -/
def sendTick (wsConnected isPlaying : Bool) (states : List (String × Bool))
    (events : List (String × Int)) (videoTime : ℚ) (sessionId : String) :
    Option ReactionMessage :=
  if !wsConnected then none
  else if !isPlaying then none
  else some { states := states, events := events,
              videoTime := videoTime, sessionId := sessionId }

/-- A store holding one user whose two retained samples both carry
`isSmiling = true` — two samples of the same window. -/
def demoStore : Store :=
  [("u1",
    [ { timestamp := 1000, states := [("isSmiling", true)], events := [("nod", 1)] },
      { timestamp := 2000, states := [("isSmiling", true)], events := [] } ])]



/-- A concrete effect message, used to instantiate broadcast statements. -/
def demoEffect : Effect :=
  { effectType := "sparkle", intensity := 1, durationMs := 2000, timestamp := 0,
    debugActiveUsers := 1, debugRatioState := [], debugDensityEvent := [] }

/-- Deleting a key from the store makes a later lookup of that key fail. -/
theorem lookup_filter_ne (uid : String) (l : Store) :
    List.lookup uid (l.filter (fun p => p.1 != uid)) = none := by
  induction l with
  | nil => rfl
  | cons p t ih =>
      by_cases h : p.1 = uid
      · simpa [List.filter_cons, h] using ih
      · have hbe : (uid == p.1) = false := beq_eq_false_iff_ne.mpr (Ne.symm h)
        simp [List.filter_cons, h, List.lookup, hbe, ih]

/-- A failed lookup means no store entry carries the key. -/
theorem lookup_none_keys (uid : String) (s : Store)
    (h : List.lookup uid s = none) : ∀ p ∈ s, p.1 ≠ uid := by
  induction s with
  | nil => simp
  | cons q t ih =>
      intro p hp
      rcases List.mem_cons.mp hp with rfl | hmem
      · intro hq
        simp [List.lookup, hq] at h
      · refine ih ?_ p hmem
        by_cases hq : uid == q.1
        · simp [List.lookup, hq] at h
        · simpa [List.lookup, hq] using h

/-- A user absent from the store is never selected as active. -/
theorem not_mem_active_of_lookup_none (uid : String) (now : Int) (s : Store)
    (h : List.lookup uid s = none) : uid ∉ active_users now s := by
  intro hmem
  unfold active_users at hmem
  rcases List.mem_map.mp hmem with ⟨p, hp, hfst⟩
  exact lookup_none_keys uid s h p (List.mem_filter.mp hp).1 hfst

/-- C1: on every aggregation tick the effect decision evaluates its ladder
top-down and yields at most one effect, so at most one effect message is
broadcast per tick; when no ladder predicate holds (the implemented ladder is
the single sparkle rung `ratio_state.isSmiling >= 0.3`), nothing is
broadcast, and anything broadcast is the first rung whose predicate held. -/
theorem tick_broadcasts_at_most_one (now : Int) (store : Store) :
    (tickBroadcasts now store).length ≤ 1 ∧
    (dictGetQ (ratio_state_dict store (active_users now store)) "isSmiling" < 3 / 10 →
      tickBroadcasts now store = []) ∧
    (∀ e ∈ tickBroadcasts now store, e.effectType = "sparkle" ∧
      (3 / 10 : ℚ) ≤ dictGetQ (ratio_state_dict store (active_users now store)) "isSmiling") := by
  unfold tickBroadcasts aggregationTick determine_effect
  by_cases hA : (active_users now store).isEmpty
  · simp [hA]
  · by_cases hp : (3 / 10 : ℚ) ≤ dictGetQ (ratio_state_dict store (active_users now store)) "isSmiling"
    · refine ⟨?_, ?_, ?_⟩
      · simp [hA, hp]
      · intro hlt; exact absurd hp (not_le.mpr hlt)
      · intro e he
        simp [hA, hp] at he
        subst he
        exact ⟨rfl, hp⟩
    · simp [hA, hp]

/-- Witness for C1: a tick on the empty store satisfies the no-predicate
hypothesis and indeed broadcasts nothing. -/
theorem tick_broadcasts_at_most_one_witness :
    tickBroadcasts 0 ([] : Store) = [] :=
  (tick_broadcasts_at_most_one 0 []).2.1
    (by norm_num [dictGetQ, ratio_state_dict, state_keys, ratio_state_val, true_count,
          active_users])

/-- C2 (evaluation at the failing input): with one active user whose window
holds two samples that are both `isSmiling = true`, the implemented
`ratio_state` computation returns 2 — it counts (user, sample) pairs — while
the ratio described by the spec (distinct users with any true sample, over
the active count) is 1; the implemented value escapes the claimed [0,1]
interval. -/
theorem ratio_counts_samples_not_users :
    ratio_state_val demoStore (active_users 2500 demoStore) "isSmiling" = 2 ∧
    ratio_state_per_spec demoStore (active_users 2500 demoStore) "isSmiling" = 1 ∧
    ¬ ratio_state_val demoStore (active_users 2500 demoStore) "isSmiling" ≤ 1 := by
  have hactive : active_users 2500 demoStore = ["u1"] := by decide
  have h1 : true_count demoStore ["u1"] "isSmiling" = 2 := by decide
  have h2 : (["u1"] : List String).countP
      (fun uid => (storeWindow demoStore uid).any (fun s => dictGetB s.states "isSmiling")) = 1 := by
    decide
  refine ⟨?_, ?_, ?_⟩
  · rw [hactive, ratio_state_val, h1]; norm_num
  · rw [hactive, ratio_state_per_spec, h2]; norm_num
  · rw [hactive, ratio_state_val, h1]; norm_num

/-- C3 (evaluation at the failing input): the tick over the same store emits
an effect whose intensity is 2 — no clamp to [0,1] is applied after the
rung formula. -/
theorem emitted_intensity_exceeds_one :
    (aggregationTick 2500 demoStore).map Effect.intensity = some 2 ∧
    ¬ (2 : ℚ) ≤ 1 := by
  have hactive : active_users 2500 demoStore = ["u1"] := by decide
  have h1 : true_count demoStore ["u1"] "isSmiling" = 2 := by decide
  have hr : ratio_state_val demoStore ["u1"] "isSmiling" = 2 := by
    rw [ratio_state_val, h1]; norm_num
  constructor
  · rw [aggregationTick]
    simp only [hactive, List.isEmpty, determine_effect, ratio_state_dict, state_keys,
      List.map, dictGetQ, List.lookup, hr]
    norm_num
  · norm_num

/-- C4 counterexample: the `WebSocketDisconnect` handler does NOT leave the
window in the store — on disconnect of user u1 the entry is deleted and the
store changes. -/
theorem disconnect_deletes_window_cx :
    List.lookup "u1" demoStore ≠ none ∧
    List.lookup "u1" (handleDisconnect (some "u1") demoStore) = none ∧
    handleDisconnect (some "u1") demoStore ≠ demoStore := by
  decide

/-- C4 amended: when a connection whose user id is known (non-empty)
disconnects, that window is deleted from the store, and the user is
immediately absent from every later active set — not merely after the
3000 ms inactivity window. -/
theorem disconnect_removes_user (uid : String) (store : Store) (h : uid ≠ "") :
    List.lookup uid (handleDisconnect (some uid) store) = none ∧
    ∀ now, uid ∉ active_users now (handleDisconnect (some uid) store) := by
  have hne : (uid == "") = false := beq_eq_false_iff_ne.mpr h
  have hlk : List.lookup uid (handleDisconnect (some uid) store) = none := by
    by_cases hs : (List.lookup uid store).isSome
    · simp only [handleDisconnect, hne, Bool.false_eq_true, if_false, hs, if_true]
      exact lookup_filter_ne uid store
    · simp only [handleDisconnect, hne, Bool.false_eq_true, if_false, hs]
      exact Option.not_isSome_iff_eq_none.mp hs
  exact ⟨hlk, fun now => not_mem_active_of_lookup_none uid now _ hlk⟩

/-- Witness for C4 amended: disconnecting u1 from the demo store erases the
window and removes u1 from the active set of the next tick. -/
theorem disconnect_removes_user_witness :
    List.lookup "u1" (handleDisconnect (some "u1") demoStore) = none ∧
    "u1" ∉ active_users 2500 (handleDisconnect (some "u1") demoStore) :=
  ⟨(disconnect_removes_user "u1" demoStore (by decide)).1,
   (disconnect_removes_user "u1" demoStore (by decide)).2 2500⟩

/-- C5 counterexample: a message carrying client timestamp 42, received at
server time 100000, is stored with timestamp 42 — and the windowing test
already treats the just-arrived sample as inactive, so the client-supplied
field, not the server clock, drives windowing. -/
theorem client_timestamp_windowing_cx :
    (sampleOfMessage 100000 (some 42) [] []).timestamp = 42 ∧
    (sampleOfMessage 100000 (some 42) [] []).timestamp ≠ 100000 ∧
    isActiveWindow 100000 [sampleOfMessage 100000 (some 42) [] []] = false := by
  decide

/-- C5 amended: the timestamp used for windowing and the active test is the
client-supplied timestamp field whenever present; the server clock is only a
fallback for messages without the field. The persistence row written by
`log_reaction`, by contrast, is stamped with the server clock. -/
theorem windowing_uses_client_timestamp (now ts : Int) (uid : String)
    (st : List (String × Bool)) (ev : List (String × Int)) :
    (sampleOfMessage now (some ts) st ev).timestamp = ts ∧
    (sampleOfMessage now none st ev).timestamp = now ∧
    (log_reaction now uid st ev).timestamp = now :=
  ⟨rfl, rfl, rfl⟩

/-- C6: a window is active at tick time `now` iff it is non-empty and `now`
minus the timestamp of its newest sample is at most 3000 ms; a sample exactly
3000 ms old keeps the user active and one 3001 ms old does not. -/
theorem active_iff_within_3000 (now t0 : Int) (w : List ReactionSample) :
    (isActiveWindow now w = true ↔
      ∃ s, w.getLast? = some s ∧ now - s.timestamp ≤ 3000) ∧
    isActiveWindow (t0 + 3000) [{ timestamp := t0, states := [], events := [] }] = true ∧
    isActiveWindow (t0 + 3001) [{ timestamp := t0, states := [], events := [] }] = false := by
  refine ⟨?_, ?_, ?_⟩
  · unfold isActiveWindow
    cases h : w.getLast? with
    | none => simp
    | some s => simp [decide_eq_true_eq]
  · simp [isActiveWindow, List.getLast?]
  · simp [isActiveWindow, List.getLast?]

/-- C7: on a tick that decided an effect, the `effects_log` insert comes
strictly before the fan-out (the trace is the log action followed by only
send actions), exactly one row is recorded however many subscriber sends
fail, and a tick without an effect records nothing. -/
theorem log_effect_precedes_broadcast (e : Effect) (subs : List (String × Bool)) :
    tickEffectTrace true subs (some e) =
      ServerAction.logEffectRow e :: broadcastTrace subs e ∧
    (tickEffectTrace true subs (some e)).countP isLogRowAct = 1 ∧
    (broadcastTrace subs e).countP isLogRowAct = 0 ∧
    tickEffectTrace true subs none = [] := by
  have hb : (broadcastTrace subs e).countP isLogRowAct = 0 := by
    induction subs with
    | nil => rfl
    | cons p t ih =>
        unfold broadcastTrace at ih ⊢
        rw [List.map_cons, List.countP_cons]
        by_cases hp : p.2 = true <;> simp [hp, isLogRowAct, ih]
  refine ⟨rfl, ?_, hb, rfl⟩
  rw [show tickEffectTrace true subs (some e) =
      ServerAction.logEffectRow e :: broadcastTrace subs e from rfl]
  simp [List.countP_cons, hb, isLogRowAct]

/-- C8: the fan-out loop attempts every registered subscriber, so a failing
subscriber never prevents delivery to another: any subscriber whose own send
succeeds receives the message, whatever the other entries do. -/
theorem broadcast_failure_isolated (subs : List (String × Bool)) (uid : String)
    (e : Effect) (h : (uid, true) ∈ subs) :
    uid ∈ broadcastSent subs ∧
    ServerAction.sendEffect uid e ∈ broadcastTrace subs e ∧
    (broadcastTrace subs e).length = subs.length := by
  refine ⟨?_, ?_, ?_⟩
  · exact List.mem_map.mpr ⟨(uid, true), List.mem_filter.mpr ⟨h, rfl⟩, rfl⟩
  · exact List.mem_map.mpr ⟨(uid, true), h, rfl⟩
  · exact List.length_map _ _

/-- Witness for C8: with subscriber A failing and B healthy, B still
receives the broadcast. -/
theorem broadcast_failure_isolated_witness :
    "B" ∈ broadcastSent [("A", false), ("B", true)] ∧
    ServerAction.sendEffect "B" demoEffect ∈
      broadcastTrace [("A", false), ("B", true)] demoEffect :=
  ⟨(broadcast_failure_isolated [("A", false), ("B", true)] "B" demoEffect (by decide)).1,
   (broadcast_failure_isolated [("A", false), ("B", true)] "B" demoEffect (by decide)).2.1⟩

/-- C9: a non-host participant with a live player seeks to the host time on
a time-sync response exactly when the absolute clock difference strictly
exceeds 1.0 s; at a difference of 1.0 s or less nothing is seeked. -/
theorem time_sync_seek_iff (hostTime myTime : ℚ) :
    (handleTimeSyncResponse (some hostTime) false true myTime = some hostTime ↔
      1 < |hostTime - myTime|) ∧
    (|hostTime - myTime| ≤ 1 →
      handleTimeSyncResponse (some hostTime) false true myTime = none) := by
  unfold handleTimeSyncResponse
  by_cases h : 1 < |hostTime - myTime|
  · refine ⟨?_, ?_⟩
    · simp [h]
    · intro hle; exact absurd h (not_lt.mpr hle)
  · refine ⟨?_, ?_⟩
    · simp [h]
    · intro _; simp [h]

/-- Witness for C9: with host and local clocks agreeing the difference is
0 ≤ 1, and no seek happens. -/
theorem time_sync_seek_iff_witness :
    handleTimeSyncResponse (some 5) false true 5 = none :=
  (time_sync_seek_iff 5 5).2 (by norm_num)

/-- C10: the 1-second reaction-send loop emits a frame only in the playing
state (player state code 1): for any non-playing state code no frame is sent
even over a connected socket, while a playing, connected client sends the
full reaction frame. -/
theorem no_frames_unless_playing (d : Int) (c : Bool) (st : List (String × Bool))
    (ev : List (String × Int)) (vt : ℚ) (sid : String) :
    (d ≠ 1 → sendTick c (isPlayingFlag d) st ev vt sid = none) ∧
    sendTick true (isPlayingFlag 1) st ev vt sid =
      some { states := st, events := ev, videoTime := vt, sessionId := sid } := by
  constructor
  · intro hd
    have : isPlayingFlag d = false := by
      simp [isPlayingFlag, hd]
    cases c <;> simp [sendTick, this]
  · rfl

/-- Witness for C10: in the paused state (code 2) a connected client sends
nothing. -/
theorem no_frames_unless_playing_witness :
    sendTick true (isPlayingFlag 2) [] [] 0 "" = none :=
  (no_frames_unless_playing 2 true [] [] 0 "").1 (by decide)

end LiveReaction
